import Mathlib

/-!
# Verification of the papers MCP server (`mcp_papers_server.py`)

Shallow embedding of the server-side service logic and MCP tool handlers of
`Servidores/mcp_papers_server.py`:

* Python `str` values are modelled as lists of Unicode code points
  (`PyStr := List Char`), matching Python's code-point sequence semantics;
  slicing `s[:n]` is `List.take n`, `str.strip` is whitespace trimming at both
  ends, `str.replace` replaces all non-overlapping occurrences left to right,
  and the `in` operator on strings is substring containment.
* The external collaborators (the ArXiv search provider and the Gemini
  generation provider) are opaque parameters: a search either yields a stream
  of raw records or raises, a generation call yields text, yields nothing
  usable, or raises.  Python exceptions from these collaborators are modelled
  by the corresponding `err` outcomes, and `try/except` blocks by matching on
  them exactly where the source catches.
* The service's mutable `papers_cache` is threaded explicitly: every tool
  handler maps a `ServiceState` (and its external inputs) to a new state and
  a result envelope.
-/

/-- Python strings as sequences of Unicode code points. -/
abbrev PyStr := List Char

/-- Coerce a Lean string literal to the model representation. -/
def str (s : String) : PyStr := s.data

/-- Decimal rendering of a natural number, as used by f-string interpolation
of list lengths and counts. -/
def natRepr (n : Nat) : PyStr := (Nat.repr n).data

/-- The single-quote character (used by the search envelope message). -/
def squote : Char := Char.ofNat 39

/-- Python `str.strip()`: remove leading and trailing whitespace. -/
def pyStrip (s : PyStr) : PyStr :=
  ((s.dropWhile Char.isWhitespace).reverse.dropWhile Char.isWhitespace).reverse

/-- Python `str.lower()` (adequate for the ASCII trigger keywords). -/
def pyLower (s : PyStr) : PyStr := s.map Char.toLower

/-- One step bound for `pyReplace`: fuel-indexed structural recursion; the
fuel is the string length, which bounds the number of steps. -/
def pyReplaceAux (pat repl : PyStr) : Nat → PyStr → PyStr
  | _, [] => []
  | 0, s => s
  | fuel + 1, c :: cs =>
    if pat ≠ [] ∧ (c :: cs).take pat.length = pat then
      repl ++ pyReplaceAux pat repl fuel ((c :: cs).drop pat.length)
    else
      c :: pyReplaceAux pat repl fuel cs

/-- Python `s.replace(pat, repl)`: replace all non-overlapping occurrences of
`pat` in `s`, scanning left to right (no effect when `pat` is empty, matching
the use sites, which only pass non-empty keywords). -/
def pyReplace (pat repl s : PyStr) : PyStr := pyReplaceAux pat repl s.length s

/-- Python `pat in s` for strings: substring containment. -/
def pyContains (s pat : PyStr) : Bool :=
  match s with
  | [] => decide (pat = [])
  | _ :: cs => decide (s.take pat.length = pat) || pyContains cs pat

/-- A cached paper record, as built by `_search_papers_sync` (lines 173-181
of the source): title, bounded summary, at most five authors, formatted
publication date (or `"N/A"`), entry URL, PDF URL, at most three categories. -/
structure Paper where
  title : PyStr
  summary : PyStr
  authors : List PyStr
  published : PyStr
  url : PyStr
  pdf_url : PyStr
  categories : List PyStr
deriving DecidableEq, Repr

/-- A raw result record from the ArXiv client, before the server reshapes it
into a `Paper`.  `published` is the already-formatted `%Y-%m-%d` date when the
record has one (`result.published` truthy), `none` otherwise. -/
structure ArxivResult where
  title : PyStr
  summary : PyStr
  authors : List PyStr
  published : Option PyStr
  entry_id : PyStr
  pdf_url : PyStr
  categories : List PyStr
deriving DecidableEq, Repr

/-- The mutable state of the `PapersService` singleton: its in-memory cache. -/
structure ServiceState where
  papers_cache : List Paper
deriving DecidableEq, Repr

/-- Outcome of one call to the external ArXiv search collaborator: a stream of
raw records, or a raised exception carrying a message. -/
inductive SearchOutcome where
  | ok (results : List ArxivResult)
  | err (msg : PyStr)
deriving DecidableEq, Repr

/-- Outcome of one call to the external generation collaborator: a response
with text, a response with no usable text, or a raised exception. -/
inductive GenOutcome where
  | ok (text : PyStr)
  | empty
  | err (msg : PyStr)

/-- Reshape one raw ArXiv record into the cached dictionary (source lines
173-181): strip the title, strip and bound the summary to 1000 characters,
keep the first 5 authors and first 3 categories, default the date. -/
def mkPaper (r : ArxivResult) : Paper :=
  { title := pyStrip r.title
    summary := (pyStrip r.summary).take 1000
    authors := r.authors.take 5
    published := r.published.getD (str "N/A")
    url := r.entry_id
    pdf_url := r.pdf_url
    categories := r.categories.take 3 }

/-- The result-collection loop of `_search_papers_sync` (source lines
165-185): append reshaped records until `max_results` papers are collected,
then stop. -/
def searchLoop (max_results : Nat) : List ArxivResult → List Paper → List Paper
  | [], papers => papers
  | r :: rs, papers =>
    if max_results ≤ papers.length then papers
    else searchLoop max_results rs (papers ++ [mkPaper r])

/-- `_search_papers_sync` (source lines 141-187).  The `query` string only
parameterises the external search whose output is the given `stream`, so the
in-process computation is the collection loop over that stream. -/
def _search_papers_sync (stream : List ArxivResult) (query : PyStr)
    (max_results : Nat) : List Paper :=
  searchLoop max_results stream []

/-- The server-side clamp of `max_results` (source line 116):
`min(max(1, max_results), 10)`. -/
def clampMaxResults (max_results : Int) : Int := min (max 1 max_results) 10

/-- `search_papers_async` (source lines 93-139): reject a falsy query, clamp
`max_results` into `[1, 10]`, run the synchronous search, store the results
in the cache.  A provider exception is caught (line 137) and yields `[]`
without touching the cache. -/
def search_papers_async (st : ServiceState) (provider : SearchOutcome)
    (query : PyStr) (max_results : Int) : ServiceState × List Paper :=
  if query = [] then (st, [])
  else
    match provider with
    | .err _ => (st, [])
    | .ok stream =>
      let papers := _search_papers_sync stream query (clampMaxResults max_results).toNat
      ({ st with papers_cache := papers }, papers)

/-- The envelope returned by the `search_papers` tool (source lines 351-356). -/
structure SearchEnvelope where
  success : Bool
  count : Nat
  papers : List Paper
  message : PyStr
deriving DecidableEq, Repr

/-- The `search_papers` MCP tool (source lines 318-356). -/
def search_papers (st : ServiceState) (provider : SearchOutcome)
    (query : PyStr) (max_results : Int) : ServiceState × SearchEnvelope :=
  let r := search_papers_async st provider query max_results
  (r.1,
   { success := decide (0 < r.2.length)
     count := r.2.length
     papers := r.2
     message := str "Encontrados " ++ natRepr r.2.length ++ str " papers sobre "
       ++ [squote] ++ query ++ [squote] })

/-- Result envelope of the `get_paper_details` tool: the failure dictionaries
carry only a message; the success dictionary carries the paper, the echoed
index and the cache size (source lines 376-396). -/
inductive DetailsResult where
  | failure (message : PyStr)
  | success (paper : Paper) (index : Int) (total_cached : Nat)
deriving DecidableEq, Repr

/-- The `get_paper_details` MCP tool (source lines 358-396): empty-cache
check, then the bounds check `paper_index < 0 or paper_index >= len(cache)`,
then the indexed read. -/
def get_paper_details (cache : List Paper) (paper_index : Int) : DetailsResult :=
  if cache = [] then
    .failure (str "Nenhum paper no cache. Execute uma busca primeiro.")
  else if h : paper_index < 0 ∨ (cache.length : Int) ≤ paper_index then
    .failure (str "Índice inválido. Cache contém " ++ natRepr cache.length
      ++ str " papers.")
  else
    .success (cache.get ⟨paper_index.toNat, by omega⟩) paper_index cache.length

/-- The per-paper author line of `_format_papers_context` (source line 288):
`", ".join(paper["authors"][:2]) + (" et al." if len(paper["authors"]) > 2 else "")`. -/
def formatAuthors (p : Paper) : PyStr :=
  List.intercalate (str ", ") (p.authors.take 2)
    ++ (if 2 < p.authors.length then str " et al." else [])

/-- One formatted paper entry of the context block (source lines 289-297),
with the summary sliced to its first 500 characters. -/
def formatPaperEntry (i : Nat) (p : Paper) : PyStr :=
  str "\nPaper " ++ natRepr i ++ str ":\nTítulo: " ++ p.title
    ++ str "\nAutores: " ++ formatAuthors p
    ++ str "\nData: " ++ p.published
    ++ str "\nResumo: " ++ p.summary.take 500
    ++ str "...\nURL: " ++ p.url ++ str "\n\n"

/-- The accumulation of entries for `enumerate(papers[:5], 1)`, starting the
numbering at `i`. -/
def formatEntriesFrom (i : Nat) : List Paper → PyStr
  | [] => []
  | p :: ps => formatPaperEntry i p ++ formatEntriesFrom (i + 1) ps

/-- `_format_papers_context` (source lines 276-298): the concatenated entries
of at most the first 5 cached papers, numbered from 1. -/
def _format_papers_context (papers : List Paper) : PyStr :=
  formatEntriesFrom 1 (papers.take 5)

/-- The `summary` analysis prompt template (source lines 238-247). -/
def summaryPrompt (papers_context : PyStr) : PyStr :=
  str "\n                Analise os seguintes papers acadêmicos e forneça um resumo executivo destacando:\n                1. Principais temas e tendências\n                2. Metodologias mais utilizadas\n                3. Descobertas significativas\n                4. Lacunas de pesquisa identificadas\n                \n                Papers:\n                "
    ++ papers_context ++ str "\n            "

/-- The `trends` analysis prompt template (source lines 248-256). -/
def trendsPrompt (papers_context : PyStr) : PyStr :=
  str "\n                Identifique as principais tendências de pesquisa nos papers abaixo:\n                - Tecnologias emergentes\n                - Mudanças de paradigma\n                - Áreas de crescimento\n                \n                Papers:\n                "
    ++ papers_context ++ str "\n            "

/-- The `comparison` analysis prompt template (source lines 257-265). -/
def comparisonPrompt (papers_context : PyStr) : PyStr :=
  str "\n                Compare e contraste os papers abaixo considerando:\n                - Abordagens metodológicas\n                - Resultados obtidos\n                - Contribuições únicas\n                \n                Papers:\n                "
    ++ papers_context ++ str "\n            "

/-- The prompt selection `prompts.get(analysis_type, prompts["summary"])`
(source line 269): look the key up in the prompt table, falling back to the
`summary` prompt on an unrecognized key. -/
def choosePrompt (analysis_type papers_context : PyStr) : PyStr :=
  if analysis_type = str "summary" then summaryPrompt papers_context
  else if analysis_type = str "trends" then trendsPrompt papers_context
  else if analysis_type = str "comparison" then comparisonPrompt papers_context
  else summaryPrompt papers_context

/-- `_analyze_papers_sync` (source lines 220-274): format the context, choose
the prompt, call the generation collaborator; a response with text yields the
stripped text, a response without usable text yields the documented fallback,
and a raised exception propagates (as `Except.error`). -/
def _analyze_papers_sync (gen : PyStr → GenOutcome) (papers : List Paper)
    (analysis_type : PyStr) : Except PyStr PyStr :=
  let papers_context := _format_papers_context papers
  let prompt := choosePrompt analysis_type papers_context
  match gen prompt with
  | .ok t => .ok (if t = [] then str "Análise não disponível." else pyStrip t)
  | .empty => .ok (str "Análise não disponível.")
  | .err m => .error m

/-- `analyze_papers_async` (source lines 189-218): guard against an empty
paper list, then run the synchronous analysis, catching a collaborator
exception into the `"Erro na análise: ..."` text. -/
def analyze_papers_async (gen : PyStr → GenOutcome) (papers : List Paper)
    (analysis_type : PyStr) : PyStr :=
  if papers = [] then str "Nenhum paper disponível para análise."
  else
    match _analyze_papers_sync gen papers analysis_type with
    | .ok analysis => analysis
    | .error e => str "Erro na análise: " ++ e

/-- Result envelope of the `analyze_papers` tool (source lines 417-444):
failures carry only a message; success carries the echoed type, the number of
papers analyzed and the analysis text. -/
inductive AnalyzeResult where
  | failure (message : PyStr)
  | success (analysis_type : PyStr) (papers_analyzed : Nat) (analysis : PyStr)
deriving DecidableEq, Repr

/-- Whether an `analyze_papers` envelope is a failure (`success == False`). -/
def AnalyzeResult.isFailure : AnalyzeResult → Bool
  | .failure _ => true
  | .success _ _ _ => false

/-- The accepted analysis types (source line 424). -/
def valid_types : List PyStr := [str "summary", str "trends", str "comparison"]

/-- The `analyze_papers` MCP tool (source lines 398-444).  The Boolean in the
result records whether the generation collaborator is reached on that path:
the two validation failures return before any external call, while the
success path runs `analyze_papers_async` on the (non-empty) cache, which
always issues one generation call. -/
def analyze_papers (st : ServiceState) (gen : PyStr → GenOutcome)
    (analysis_type : PyStr) : AnalyzeResult × Bool :=
  if st.papers_cache = [] then
    (.failure (str "Nenhum paper no cache. Execute uma busca primeiro."), false)
  else if analysis_type ∉ valid_types then
    (.failure (str "Tipo de análise inválido. Use: "
      ++ List.intercalate (str ", ") valid_types), false)
  else
    (.success analysis_type st.papers_cache.length
      (analyze_papers_async gen st.papers_cache analysis_type), true)

/-- The envelope returned by the `clear_cache` tool (source lines 461-464). -/
structure ClearEnvelope where
  success : Bool
  message : PyStr
deriving DecidableEq, Repr

/-- The `clear_cache` MCP tool (source lines 446-464): read the prior count,
empty the cache, report the prior count. -/
def clear_cache (st : ServiceState) : ServiceState × ClearEnvelope :=
  let previous_count := st.papers_cache.length
  ({ st with papers_cache := [] },
   { success := true
     message := str "Cache limpo. " ++ natRepr previous_count
       ++ str " papers removidos." })

/-- Result envelope of the `get_cache_info` tool: the empty-cache dictionary
(source lines 485-489) versus the statistics dictionary (lines 512-520). -/
inductive CacheInfoResult where
  | emptyInfo (success : Bool) (cached_papers : Nat) (message : PyStr)
  | statsInfo (success : Bool) (cached_papers : Nat) (paper_titles : List PyStr)
      (categories : List PyStr) (publication_years : List PyStr)
      (total_authors : Nat) (message : PyStr)
deriving DecidableEq, Repr

/-- The `cached_papers` field common to both envelope shapes. -/
def CacheInfoResult.count : CacheInfoResult → Nat
  | .emptyInfo _ c _ => c
  | .statsInfo _ c _ _ _ _ _ => c

/-- The category collection loop of `get_cache_info` (source lines 494-497):
every cached paper carries its `categories` list, which is extended into one
accumulator. -/
def allCategories (cache : List Paper) : List PyStr :=
  cache.foldl (fun acc p => acc ++ p.categories) []

/-- `published.split("-")[0]` (source line 506): the prefix of the date
string before its first dash (the whole string when no dash occurs). -/
def yearOf (published : PyStr) : PyStr := published.takeWhile (fun c => c != '-')

/-- The publication-year collection loop of `get_cache_info` (source lines
502-509): papers with a truthy date other than `"N/A"` contribute the year
component; the guarded split/index never raises. -/
def paperYears (cache : List Paper) : List PyStr :=
  cache.filterMap (fun p =>
    if p.published ≠ [] ∧ p.published ≠ str "N/A" then some (yearOf p.published)
    else none)

/-- The `get_cache_info` MCP tool (source lines 466-520).  Python's
`list(set(...))` deduplicates with interpreter-chosen order; it is modelled
by `List.dedup`, a canonical deduplication, and the theorems about this tool
only use order-independent properties of the deduplicated lists. -/
def get_cache_info (st : ServiceState) : ServiceState × CacheInfoResult :=
  let cache := st.papers_cache
  if cache = [] then
    (st, .emptyInfo true 0 (str "Cache vazio"))
  else
    let unique_categories := (allCategories cache).dedup
    let years := paperYears cache
    (st, .statsInfo true cache.length
      (cache.map fun p => p.title.take 100)
      (unique_categories.take 10)
      years.dedup
      ((cache.map fun p => p.authors.length).sum)
      (str "Cache contém " ++ natRepr cache.length ++ str " papers"))

/-- The chat trigger keywords (source line 547). -/
def search_keywords : List PyStr :=
  [str "busque", str "procure", str "encontre", str "pesquise"]

/-- The trigger detection of `chat_about_papers` (source line 548):
`any(keyword in message.lower() for keyword in search_keywords)`. -/
def needs_search (message : PyStr) : Bool :=
  search_keywords.any (fun kw => pyContains (pyLower message) kw)

/-- The query extraction of `chat_about_papers` (source lines 554-556):
lowercase the message, then for each keyword in order remove all its
occurrences and strip the result. -/
def extractQuery (message : PyStr) : PyStr :=
  search_keywords.foldl (fun q kw => pyStrip (pyReplace kw [] q)) (pyLower message)

/-- The chat prompt used when an auto-search found papers (source lines
564-571). -/
def chatPromptFound (message context : PyStr) : PyStr :=
  str "\n                Pergunta do usuário: " ++ message
    ++ str "\n                \n                Papers encontrados:\n                "
    ++ context
    ++ str "\n                \n                Responda de forma clara e informativa sobre os papers encontrados.\n                "

/-- The chat prompt used when an auto-search found nothing (source lines
573-578). -/
def chatPromptNotFound (message : PyStr) : PyStr :=
  str "\n                Pergunta do usuário: " ++ message
    ++ str "\n                \n                Não foram encontrados papers sobre este tema.\n                Sugira alternativas ou forneça informações gerais sobre o tópico.\n                "

/-- The chat prompt used over a non-empty cache without auto-search (source
lines 585-592). -/
def chatPromptCache (message context : PyStr) : PyStr :=
  str "\n                Pergunta do usuário: " ++ message
    ++ str "\n                \n                Papers disponíveis no contexto:\n                "
    ++ context
    ++ str "\n                \n                Responda baseando-se nos papers disponíveis.\n                "

/-- The chat prompt used with no triggers and an empty cache (source lines
595-600). -/
def chatPromptGeneric (message : PyStr) : PyStr :=
  str "\n                Pergunta do usuário: " ++ message
    ++ str "\n                \n                Responda como um assistente especializado em papers acadêmicos.\n                Sugira fazer buscas se necessário.\n                "

/-- Result envelope of the `chat_about_papers` tool: the success dictionary
(source lines 606-611) versus the caught-exception dictionary (lines
615-618). -/
inductive ChatResult where
  | ok (message : PyStr) (response : PyStr) (papers_in_context : Nat)
  | err (message : PyStr)
deriving DecidableEq, Repr

/-- The response-text extraction shared by `chat_about_papers` (source line
604): the stripped generated text, or the fixed fallback when the response
carries no usable text. -/
def chatAnswer (g : GenOutcome) : PyStr :=
  match g with
  | .ok t => if t = [] then str "Não foi possível gerar uma resposta." else pyStrip t
  | .empty => str "Não foi possível gerar uma resposta."
  | .err _ => []

/-- The `chat_about_papers` MCP tool (source lines 522-618).  On a trigger
keyword it runs an auto-search with `max_results = 5` (mutating the cache via
`search_papers_async`), otherwise it answers over the current cache.  A
generation exception is caught at line 613 into a failure envelope — after
any auto-search mutation already happened. -/
def chat_about_papers (st : ServiceState) (provider : SearchOutcome)
    (gen : PyStr → GenOutcome) (message : PyStr) : ServiceState × ChatResult :=
  if needs_search message then
    let query := extractQuery message
    let r := search_papers_async st provider query 5
    let prompt :=
      if r.2 ≠ [] then chatPromptFound message (_format_papers_context r.2)
      else chatPromptNotFound message
    match gen prompt with
    | .err e => (r.1, .err (str "Erro ao processar mensagem: " ++ e))
    | g => (r.1, .ok message (chatAnswer g) r.1.papers_cache.length)
  else
    let prompt :=
      if st.papers_cache ≠ [] then
        chatPromptCache message (_format_papers_context st.papers_cache)
      else chatPromptGeneric message
    match gen prompt with
    | .err e => (st, .err (str "Erro ao processar mensagem: " ++ e))
    | g => (st, .ok message (chatAnswer g) st.papers_cache.length)

/-- A concrete cached paper used to instantiate witnesses. -/
def samplePaper : Paper :=
  { title := str "Quantum Widgets"
    summary := str "A paper about widgets."
    authors := [str "Ada Lovelace", str "Alan Turing", str "Emmy Noether"]
    published := str "2023-05-01"
    url := str "http://arxiv.org/abs/1234.5678v1"
    pdf_url := str "http://arxiv.org/pdf/1234.5678v1"
    categories := [str "cs.AI", str "cs.LG"] }

/-- The `cached_papers` field reported by `get_cache_info` always equals the
current cache length, in both the empty and the non-empty branch. -/
theorem get_cache_info_count_eq (st : ServiceState) :
    ((get_cache_info st).2).count = st.papers_cache.length := by
  by_cases h : st.papers_cache = [] <;>
    simp [get_cache_info, h, CacheInfoResult.count]

/-- The collection loop never grows past `max_results` (starting from an
accumulator, the result is bounded by the larger of the two bounds). -/
theorem searchLoop_length_le (m : Nat) (rs : List ArxivResult) :
    ∀ acc : List Paper, (searchLoop m rs acc).length ≤ max m acc.length := by
  induction rs with
  | nil => intro acc; simp [searchLoop]
  | cons r rs ih =>
    intro acc
    by_cases h : m ≤ acc.length
    · simp [searchLoop, h]
    · have := ih (acc ++ [mkPaper r])
      simp only [List.length_append, List.length_cons, List.length_nil] at this
      simp only [searchLoop, h, if_false]
      omega

/-- C1: for every cache state and integer index `i`, `get_paper_details`
returns a success envelope holding the cached paper at position `i` exactly
when `0 ≤ i < cache length`, and a failure envelope carrying only a message
(no paper payload) for every `i` outside that range, including on an empty
cache; the bounds check precedes the indexed read, so no index error can
escape. -/
theorem get_paper_details_total_bounds (cache : List Paper) (i : Int) :
    (0 ≤ i → i < (cache.length : Int) →
      ∃ p, cache[i.toNat]? = some p
        ∧ get_paper_details cache i = DetailsResult.success p i cache.length)
  ∧ ((i < 0 ∨ (cache.length : Int) ≤ i) →
      ∃ msg, get_paper_details cache i = DetailsResult.failure msg) := by
  constructor
  · intro h0 hlt
    have hne : cache ≠ [] := by
      intro hc
      subst hc
      simp at hlt
      omega
    have hnb : ¬(i < 0 ∨ (cache.length : Int) ≤ i) := by omega
    have hbound : i.toNat < cache.length := by omega
    refine ⟨cache.get ⟨i.toNat, hbound⟩, ?_, ?_⟩
    · simp [List.getElem?_eq_getElem hbound]
    · simp only [get_paper_details, if_neg hne, dif_neg hnb]
  · intro h
    by_cases hc : cache = []
    · exact ⟨str "Nenhum paper no cache. Execute uma busca primeiro.",
        by simp only [get_paper_details, if_pos hc]⟩
    · exact ⟨str "Índice inválido. Cache contém " ++ natRepr cache.length
          ++ str " papers.",
        by simp only [get_paper_details, if_neg hc, dif_pos h]⟩

/-- Witness for C1 at a one-element cache: index 0 succeeds with the cached
paper, index 5 fails. -/
theorem get_paper_details_total_bounds_witness :
    (∃ p, [samplePaper][(0 : Int).toNat]? = some p
       ∧ get_paper_details [samplePaper] 0 = DetailsResult.success p 0 1)
  ∧ ∃ msg, get_paper_details [samplePaper] 5 = DetailsResult.failure msg :=
  ⟨(get_paper_details_total_bounds [samplePaper] 0).1 (by decide) (by decide),
   (get_paper_details_total_bounds [samplePaper] 5).2 (by decide)⟩

/-- C2: after a search that reaches the provider (truthy query, no provider
exception), the cache consists exactly of the returned papers, the envelope
count equals their number, a subsequent `get_cache_info` reports that same
count, and the resulting cache does not depend on the prior cache state — a
search always overwrites, never appends or merges. -/
theorem search_overwrites_cache (st st2 : ServiceState) (stream : List ArxivResult)
    (query : PyStr) (mr : Int) (hq : query ≠ []) :
    ((search_papers st (SearchOutcome.ok stream) query mr).1.papers_cache
        = (search_papers st (SearchOutcome.ok stream) query mr).2.papers)
  ∧ ((search_papers st (SearchOutcome.ok stream) query mr).2.count
        = (search_papers st (SearchOutcome.ok stream) query mr).2.papers.length)
  ∧ (((get_cache_info (search_papers st (SearchOutcome.ok stream) query mr).1).2).count
        = (search_papers st (SearchOutcome.ok stream) query mr).2.count)
  ∧ ((search_papers st2 (SearchOutcome.ok stream) query mr).1.papers_cache
        = (search_papers st (SearchOutcome.ok stream) query mr).1.papers_cache) := by
  refine ⟨?_, ?_, ?_, ?_⟩ <;>
    simp [search_papers, search_papers_async, hq, get_cache_info_count_eq]

/-- Witness for C2 with a one-record provider stream over a non-empty prior
cache. -/
theorem search_overwrites_cache_witness :
    ((search_papers ⟨[samplePaper]⟩
        (SearchOutcome.ok [⟨str "T", str "S", [str "A"], some (str "2024-01-02"),
          str "U", str "P", [str "cs.AI"]⟩])
        (str "ai") 3).1.papers_cache
      = (search_papers ⟨[samplePaper]⟩
          (SearchOutcome.ok [⟨str "T", str "S", [str "A"], some (str "2024-01-02"),
            str "U", str "P", [str "cs.AI"]⟩])
          (str "ai") 3).2.papers)
  ∧ ((search_papers ⟨[samplePaper]⟩
        (SearchOutcome.ok [⟨str "T", str "S", [str "A"], some (str "2024-01-02"),
          str "U", str "P", [str "cs.AI"]⟩])
        (str "ai") 3).2.count
      = (search_papers ⟨[samplePaper]⟩
          (SearchOutcome.ok [⟨str "T", str "S", [str "A"], some (str "2024-01-02"),
            str "U", str "P", [str "cs.AI"]⟩])
          (str "ai") 3).2.papers.length)
  ∧ (((get_cache_info (search_papers ⟨[samplePaper]⟩
        (SearchOutcome.ok [⟨str "T", str "S", [str "A"], some (str "2024-01-02"),
          str "U", str "P", [str "cs.AI"]⟩])
        (str "ai") 3).1).2).count
      = (search_papers ⟨[samplePaper]⟩
          (SearchOutcome.ok [⟨str "T", str "S", [str "A"], some (str "2024-01-02"),
            str "U", str "P", [str "cs.AI"]⟩])
          (str "ai") 3).2.count)
  ∧ ((search_papers ⟨[]⟩
        (SearchOutcome.ok [⟨str "T", str "S", [str "A"], some (str "2024-01-02"),
          str "U", str "P", [str "cs.AI"]⟩])
        (str "ai") 3).1.papers_cache
      = (search_papers ⟨[samplePaper]⟩
          (SearchOutcome.ok [⟨str "T", str "S", [str "A"], some (str "2024-01-02"),
            str "U", str "P", [str "cs.AI"]⟩])
          (str "ai") 3).1.papers_cache) :=
  search_overwrites_cache ⟨[samplePaper]⟩ ⟨[]⟩
    [⟨str "T", str "S", [str "A"], some (str "2024-01-02"),
      str "U", str "P", [str "cs.AI"]⟩]
    (str "ai") 3 (by decide)

/-- C3: the effective result count used by a search is
`min(max(1, max_results), 10)`: it always lies in `[1, 10]`, values below 1
become 1, values above 10 become 10, in-range values pass through, and the
cache produced by a completed search never exceeds that clamped bound. -/
theorem max_results_clamping (mr : Int) :
    (1 ≤ clampMaxResults mr ∧ clampMaxResults mr ≤ 10)
  ∧ (mr < 1 → clampMaxResults mr = 1)
  ∧ (10 < mr → clampMaxResults mr = 10)
  ∧ (1 ≤ mr → mr ≤ 10 → clampMaxResults mr = mr)
  ∧ (∀ (st : ServiceState) (stream : List ArxivResult) (query : PyStr),
      query ≠ [] →
      ((search_papers_async st (SearchOutcome.ok stream) query mr).1.papers_cache).length
        ≤ (clampMaxResults mr).toNat) := by
  have hclamp : clampMaxResults mr = min (max 1 mr) 10 := rfl
  refine ⟨⟨?_, ?_⟩, ?_, ?_, ?_, ?_⟩
  · rw [hclamp]; omega
  · rw [hclamp]; omega
  · intro h; rw [hclamp]; omega
  · intro h; rw [hclamp]; omega
  · intro h1 h2; rw [hclamp]; omega
  · intro st stream query hq
    have hloop := searchLoop_length_le (clampMaxResults mr).toNat stream []
    simp only [List.length_nil, Nat.max_zero] at hloop
    simpa [search_papers_async, _search_papers_sync, hq] using hloop

/-- Witness for C3: out-of-range requests 0 and 99 are clamped to 1 and 10,
and a completed search with request 99 over a two-record stream caches at
most 10 papers. -/
theorem max_results_clamping_witness :
    (clampMaxResults 0 = 1 ∧ clampMaxResults 99 = 10)
  ∧ ((search_papers_async ⟨[]⟩
        (SearchOutcome.ok [⟨str "T", str "S", [str "A"], none, str "U", str "P", []⟩])
        (str "ai") 99).1.papers_cache).length ≤ (clampMaxResults 99).toNat :=
  ⟨⟨(max_results_clamping 0).2.1 (by decide), (max_results_clamping 99).2.2.1 (by decide)⟩,
   (max_results_clamping 99).2.2.2.2 ⟨[]⟩
     [⟨str "T", str "S", [str "A"], none, str "U", str "P", []⟩]
     (str "ai") (by decide)⟩

/-- C4: whenever the cache is empty, `analyze_papers` returns the failure
envelope (success flag down, message only) and the generation provider is
never contacted — the instrumentation flag stays `false`, and the result is
the same for every provider. -/
theorem analyze_rejects_empty_cache (st : ServiceState) (gen : PyStr → GenOutcome)
    (analysis_type : PyStr) (h : st.papers_cache = []) :
    analyze_papers st gen analysis_type
      = (AnalyzeResult.failure
          (str "Nenhum paper no cache. Execute uma busca primeiro."), false) := by
  simp [analyze_papers, h]

/-- Witness for C4 at the empty state and a provider that would answer. -/
theorem analyze_rejects_empty_cache_witness :
    analyze_papers ⟨[]⟩ (fun _ => GenOutcome.ok (str "text")) (str "summary")
      = (AnalyzeResult.failure
          (str "Nenhum paper no cache. Execute uma busca primeiro."), false) :=
  analyze_rejects_empty_cache ⟨[]⟩ (fun _ => GenOutcome.ok (str "text"))
    (str "summary") (by decide)

/-- C5: for every prior cache state, `clear_cache` returns a success envelope
whose message reports the prior number of cached papers, and `get_cache_info`
issued on the resulting state reports zero cached papers. -/
theorem clear_cache_reports_prior_count (st : ServiceState) :
    (clear_cache st).2.success = true
  ∧ (clear_cache st).2.message
      = str "Cache limpo. " ++ natRepr st.papers_cache.length
          ++ str " papers removidos."
  ∧ ((get_cache_info (clear_cache st).1).2).count = 0 := by
  refine ⟨rfl, rfl, ?_⟩
  rw [get_cache_info_count_eq]
  rfl

/-- Counterexample to C6: with one cached paper and a generation provider
that raises `"boom"`, `analyze_papers` returns an envelope whose success
flag is up — the provider failure is not surfaced as a failure envelope,
but embedded in the analysis text of a success envelope. -/
theorem gen_failure_not_failure_envelope :
    ((analyze_papers ⟨[samplePaper]⟩ (fun _ => GenOutcome.err (str "boom"))
        (str "summary")).1).isFailure = false
  ∧ (analyze_papers ⟨[samplePaper]⟩ (fun _ => GenOutcome.err (str "boom"))
        (str "summary")).1
      = AnalyzeResult.success (str "summary") 1 (str "Erro na análise: boom") := by
  constructor
  · rfl
  · simp [analyze_papers, analyze_papers_async, _analyze_papers_sync, valid_types, str]

/-- C6 amended: a search-provider exception yields a failure envelope whose
message reports zero results without the underlying error text and leaves the
cache untouched; a search provider that returns empty results yields the same
zero-result failure envelope but overwrites the cache with the empty list; a
generation-provider exception yields a success envelope whose analysis text
carries the underlying message behind the `"Erro na análise: "` prefix; empty
generation text yields the documented `"Análise não disponível."` fallback,
also inside a success envelope. -/
theorem upstream_failures_surfacing (st : ServiceState) (query : PyStr)
    (mr : Int) (e ty : PyStr) (hq : query ≠ []) (hc : st.papers_cache ≠ [])
    (hty : ty ∈ valid_types) :
    ((search_papers st (SearchOutcome.err e) query mr).2
        = { success := false, count := 0, papers := [],
            message := str "Encontrados " ++ natRepr 0 ++ str " papers sobre "
              ++ [squote] ++ query ++ [squote] }
      ∧ (search_papers st (SearchOutcome.err e) query mr).1 = st)
  ∧ ((search_papers st (SearchOutcome.ok []) query mr).2
        = { success := false, count := 0, papers := [],
            message := str "Encontrados " ++ natRepr 0 ++ str " papers sobre "
              ++ [squote] ++ query ++ [squote] }
      ∧ (search_papers st (SearchOutcome.ok []) query mr).1 = ⟨[]⟩)
  ∧ (analyze_papers st (fun _ => GenOutcome.err e) ty).1
      = AnalyzeResult.success ty st.papers_cache.length (str "Erro na análise: " ++ e)
  ∧ (analyze_papers st (fun _ => GenOutcome.empty) ty).1
      = AnalyzeResult.success ty st.papers_cache.length (str "Análise não disponível.") := by
  refine ⟨⟨?_, ?_⟩, ⟨?_, ?_⟩, ?_, ?_⟩ <;>
    simp [search_papers, search_papers_async, _search_papers_sync, searchLoop,
      analyze_papers, analyze_papers_async, _analyze_papers_sync, hq, hc, hty]

/-- Witness for the amended C6 at concrete state, query and error text. -/
theorem upstream_failures_surfacing_witness :
    ((search_papers ⟨[samplePaper]⟩ (SearchOutcome.err (str "down")) (str "ai") 5).2
        = { success := false, count := 0, papers := [],
            message := str "Encontrados " ++ natRepr 0 ++ str " papers sobre "
              ++ [squote] ++ str "ai" ++ [squote] }
      ∧ (search_papers ⟨[samplePaper]⟩ (SearchOutcome.err (str "down")) (str "ai") 5).1
          = ⟨[samplePaper]⟩)
  ∧ ((search_papers ⟨[samplePaper]⟩ (SearchOutcome.ok []) (str "ai") 5).2
        = { success := false, count := 0, papers := [],
            message := str "Encontrados " ++ natRepr 0 ++ str " papers sobre "
              ++ [squote] ++ str "ai" ++ [squote] }
      ∧ (search_papers ⟨[samplePaper]⟩ (SearchOutcome.ok []) (str "ai") 5).1 = ⟨[]⟩)
  ∧ (analyze_papers ⟨[samplePaper]⟩ (fun _ => GenOutcome.err (str "down")) (str "trends")).1
      = AnalyzeResult.success (str "trends") 1 (str "Erro na análise: " ++ str "down")
  ∧ (analyze_papers ⟨[samplePaper]⟩ (fun _ => GenOutcome.empty) (str "trends")).1
      = AnalyzeResult.success (str "trends") 1 (str "Análise não disponível.") :=
  upstream_failures_surfacing ⟨[samplePaper]⟩ (str "ai") 5 (str "down")
    (str "trends") (by decide) (by decide) (by decide)

/-- Summary truncation of a cached paper to the first 500 characters, as the
context formatter applies it. -/
def truncSummary (p : Paper) : Paper := { p with summary := p.summary.take 500 }

/-- Entry accumulation is invariant under pre-truncating every summary to 500
characters: the formatter never reads past them. -/
theorem formatEntriesFrom_map_truncSummary (ps : List Paper) :
    ∀ i : Nat, formatEntriesFrom i (ps.map truncSummary) = formatEntriesFrom i ps := by
  induction ps with
  | nil => intro i; rfl
  | cons p ps ih =>
    intro i
    simp only [List.map_cons, formatEntriesFrom, ih]
    simp [formatPaperEntry, formatAuthors, truncSummary, List.take_take]

/-- C7: the generation context is bounded — it depends only on the first 5
cached papers, only on the first 500 characters of each summary, and each
entry's author line depends only on the first 2 author names together with
the more-than-2 flag, the `" et al."` marker being appended exactly when the
paper has more than 2 authors. -/
theorem context_formatting_bounds (papers : List Paper) :
    _format_papers_context papers = _format_papers_context (papers.take 5)
  ∧ _format_papers_context (papers.map truncSummary) = _format_papers_context papers
  ∧ (∀ p : Paper, 2 < p.authors.length
      ↔ formatAuthors p ≠ List.intercalate (str ", ") (p.authors.take 2))
  ∧ (∀ p q : Paper, p.authors.take 2 = q.authors.take 2 →
      (2 < p.authors.length ↔ 2 < q.authors.length) →
      formatAuthors p = formatAuthors q) := by
  refine ⟨?_, ?_, ?_, ?_⟩
  · simp [_format_papers_context, List.take_take]
  · simp [_format_papers_context, ← List.map_take, formatEntriesFrom_map_truncSummary]
  · intro p
    constructor
    · intro h2 heq
      rw [formatAuthors, if_pos h2] at heq
      have hlen := congrArg List.length heq
      simp [str] at hlen
    · intro hne
      by_contra h2
      refine hne ?_
      rw [formatAuthors, if_neg h2]
      simp
  · intro p q htake hflag
    unfold formatAuthors
    rw [htake]
    by_cases h2 : 2 < p.authors.length
    · rw [if_pos h2, if_pos (hflag.mp h2)]
    · rw [if_neg h2, if_neg (fun hq2 => h2 (hflag.mpr hq2))]

/-- Witness for C7: the author-line clauses applied at concrete papers — a
three-author paper gets the marker, and papers agreeing on their first two
authors and on the more-than-2 flag format identically. -/
theorem context_formatting_bounds_witness :
    (2 < samplePaper.authors.length
      ↔ formatAuthors samplePaper
          ≠ List.intercalate (str ", ") (samplePaper.authors.take 2))
  ∧ formatAuthors samplePaper
      = formatAuthors { samplePaper with
          authors := [str "Ada Lovelace", str "Alan Turing", str "X", str "Y"] } :=
  ⟨(context_formatting_bounds []).2.2.1 samplePaper,
   (context_formatting_bounds []).2.2.2 samplePaper
     { samplePaper with authors := [str "Ada Lovelace", str "Alan Turing", str "X", str "Y"] }
     (by decide) (by decide)⟩

/-- C9: an `analysis_type` outside the accepted set makes the tool return a
failure envelope without contacting the generation provider, while the
internal dispatcher, reached directly with the same unrecognized key, behaves
exactly as the `"summary"` strategy. -/
theorem analysis_type_validation_and_default (st : ServiceState)
    (gen : PyStr → GenOutcome) (ty : PyStr) (hty : ty ∉ valid_types) :
    (st.papers_cache ≠ [] →
      analyze_papers st gen ty
        = (AnalyzeResult.failure (str "Tipo de análise inválido. Use: "
            ++ List.intercalate (str ", ") valid_types), false))
  ∧ (∀ (papers : List Paper) (gen2 : PyStr → GenOutcome),
      _analyze_papers_sync gen2 papers ty = _analyze_papers_sync gen2 papers (str "summary")) := by
  have h1 : ty ≠ str "summary" := fun h => hty (by simp [valid_types, h])
  have h2 : ty ≠ str "trends" := fun h => hty (by simp [valid_types, h])
  have h3 : ty ≠ str "comparison" := fun h => hty (by simp [valid_types, h])
  constructor
  · intro hc
    simp [analyze_papers, hc, hty]
  · intro papers gen2
    simp [_analyze_papers_sync, choosePrompt, h1, h2, h3]

/-- Witness for C9 at the unrecognized key `"bogus"` over a one-paper cache. -/
theorem analysis_type_validation_and_default_witness :
    (analyze_papers ⟨[samplePaper]⟩ (fun _ => GenOutcome.ok (str "text")) (str "bogus")
        = (AnalyzeResult.failure (str "Tipo de análise inválido. Use: "
            ++ List.intercalate (str ", ") valid_types), false))
  ∧ _analyze_papers_sync (fun _ => GenOutcome.ok (str "text")) [samplePaper] (str "bogus")
      = _analyze_papers_sync (fun _ => GenOutcome.ok (str "text")) [samplePaper] (str "summary") :=
  ⟨(analysis_type_validation_and_default ⟨[samplePaper]⟩
      (fun _ => GenOutcome.ok (str "text")) (str "bogus") (by decide)).1 (by decide),
   (analysis_type_validation_and_default ⟨[samplePaper]⟩
      (fun _ => GenOutcome.ok (str "text")) (str "bogus") (by decide)).2
     [samplePaper] (fun _ => GenOutcome.ok (str "text"))⟩

/-- C8: on a non-empty cache, `get_cache_info` returns the state unchanged
together with the statistics envelope: the count is the cache length, the
titles are the (100-character-bounded) cached titles, the reported categories
are duplicate-free, capped at 10, drawn from the cached category tags, and
exhaustive whenever at most 10 distinct tags exist; the reported years are
exactly the distinct derived publication years; and the author total is the
sum of the author-list lengths over all cached papers. -/
theorem cache_info_statistics (st : ServiceState) (h : st.papers_cache ≠ []) :
    (get_cache_info st).1 = st
  ∧ ∃ cats yrs,
      (get_cache_info st).2
        = CacheInfoResult.statsInfo true st.papers_cache.length
            (st.papers_cache.map fun p => p.title.take 100) cats yrs
            ((st.papers_cache.map fun p => p.authors.length).sum)
            (str "Cache contém " ++ natRepr st.papers_cache.length ++ str " papers")
      ∧ cats.Nodup
      ∧ cats.length ≤ 10
      ∧ (∀ c, c ∈ cats → c ∈ allCategories st.papers_cache)
      ∧ ((allCategories st.papers_cache).dedup.length ≤ 10 →
          ∀ c, c ∈ allCategories st.papers_cache → c ∈ cats)
      ∧ yrs.Nodup
      ∧ (∀ y, y ∈ yrs ↔ y ∈ paperYears st.papers_cache) := by
  refine ⟨by simp [get_cache_info, h],
    (allCategories st.papers_cache).dedup.take 10,
    (paperYears st.papers_cache).dedup,
    by simp [get_cache_info, h], ?_, ?_, ?_, ?_, ?_, ?_⟩
  · exact List.Nodup.sublist (List.take_sublist _ _)
      (List.nodup_dedup (allCategories st.papers_cache))
  · exact List.length_take_le _ _
  · intro c hc
    exact List.mem_dedup.mp (List.take_subset _ _ hc)
  · intro hlen c hc
    rw [List.take_of_length_le hlen]
    exact List.mem_dedup.mpr hc
  · exact List.nodup_dedup _
  · intro y
    exact List.mem_dedup

/-- Witness for C8 at a one-paper cache. -/
theorem cache_info_statistics_witness :
    (get_cache_info ⟨[samplePaper]⟩).1 = ⟨[samplePaper]⟩
  ∧ ∃ cats yrs,
      (get_cache_info ⟨[samplePaper]⟩).2
        = CacheInfoResult.statsInfo true 1
            [samplePaper.title.take 100] cats yrs
            ([samplePaper.authors.length].sum)
            (str "Cache contém " ++ natRepr 1 ++ str " papers")
      ∧ cats.Nodup
      ∧ cats.length ≤ 10
      ∧ (∀ c, c ∈ cats → c ∈ allCategories [samplePaper])
      ∧ ((allCategories [samplePaper]).dedup.length ≤ 10 →
          ∀ c, c ∈ allCategories [samplePaper] → c ∈ cats)
      ∧ yrs.Nodup
      ∧ (∀ y, y ∈ yrs ↔ y ∈ paperYears [samplePaper]) :=
  cache_info_statistics ⟨[samplePaper]⟩ (by decide)

/-- Counterexample to C10 as frozen: the message `"busque"` contains a
trigger keyword, yet no search is performed and the cache is not replaced —
removing the keywords leaves an empty query, so `search_papers_async` returns
at its falsy-query check before the search and the cache write, even though
the provider has a result to offer. -/
theorem chat_trigger_only_message_no_search :
    needs_search (str "busque") = true
  ∧ extractQuery (str "busque") = []
  ∧ (chat_about_papers ⟨[samplePaper]⟩
        (SearchOutcome.ok [⟨str "T", str "S", [str "A"], none, str "U", str "P", []⟩])
        (fun _ => GenOutcome.empty) (str "busque")).1 = ⟨[samplePaper]⟩ := by
  refine ⟨by decide, by decide, ?_⟩
  decide

/-- C10 amended: when the chat message contains a trigger keyword (detected
on the lowercased message) and the query left after removing the keywords and
stripping is non-empty, `chat_about_papers` runs an auto-search whose results
— at most 5 — replace the entire papers cache, whatever it held before; for a
trigger message whose extracted query is empty, the falsy-query check returns
before any search and the state is unchanged; without a trigger, the tool
never changes the state.  The detail and analyze tools, by contrast, are
read-only on the cache. -/
theorem chat_trigger_mutates_cache (st : ServiceState) (stream : List ArxivResult)
    (gen : PyStr → GenOutcome) (message : PyStr)
    (ht : needs_search message = true) (hq : extractQuery message ≠ []) :
    ((chat_about_papers st (SearchOutcome.ok stream) gen message).1.papers_cache
        = _search_papers_sync stream (extractQuery message) 5)
  ∧ ((chat_about_papers st (SearchOutcome.ok stream) gen message).1.papers_cache.length ≤ 5)
  ∧ (∀ (st2 : ServiceState) (prov : SearchOutcome) (gen2 : PyStr → GenOutcome)
        (msg2 : PyStr), needs_search msg2 = false →
      (chat_about_papers st2 prov gen2 msg2).1 = st2)
  ∧ (∀ (st3 : ServiceState) (prov : SearchOutcome) (gen3 : PyStr → GenOutcome)
        (msg3 : PyStr), needs_search msg3 = true → extractQuery msg3 = [] →
      (chat_about_papers st3 prov gen3 msg3).1 = st3) := by
  have h5 : (clampMaxResults 5).toNat = 5 := rfl
  have hr : search_papers_async st (SearchOutcome.ok stream) (extractQuery message) 5
      = ({ st with papers_cache := _search_papers_sync stream (extractQuery message) 5 },
         _search_papers_sync stream (extractQuery message) 5) := by
    simp [search_papers_async, hq, h5]
  have hstate : (chat_about_papers st (SearchOutcome.ok stream) gen message).1
      = { st with papers_cache := _search_papers_sync stream (extractQuery message) 5 } := by
    unfold chat_about_papers
    rw [if_pos ht]
    simp only [hr]
    split <;> rfl
  refine ⟨by rw [hstate], ?_, ?_, ?_⟩
  · rw [hstate]
    have := searchLoop_length_le 5 stream []
    simpa [_search_papers_sync] using this
  · intro st2 prov gen2 msg2 hns
    unfold chat_about_papers
    rw [if_neg (by simp [hns])]
    split <;> (simp only []; split <;> rfl)
  · intro st3 prov gen3 msg3 ht3 hq3
    unfold chat_about_papers
    rw [if_pos ht3]
    simp only [hq3, search_papers_async, if_pos rfl]
    split <;> rfl

/-- Witness for C10: the message `"busque quantum"` triggers an auto-search
that replaces a non-empty prior cache. -/
theorem chat_trigger_mutates_cache_witness :
    (chat_about_papers ⟨[samplePaper]⟩ (SearchOutcome.ok [])
        (fun _ => GenOutcome.empty) (str "busque quantum")).1.papers_cache
      = _search_papers_sync [] (extractQuery (str "busque quantum")) 5 :=
  (chat_trigger_mutates_cache ⟨[samplePaper]⟩ [] (fun _ => GenOutcome.empty)
    (str "busque quantum") (by decide) (by decide)).1
